import Mathlib

/-!
Verification development for the nudge-llm RAG prototype
(`scripts/rag_inference.py`, `scripts/rag_api_server.py`).

Shallow embedding conventions:
* The chunk store directory (`load_chunks` reading `*.jsonl` files) is
  modelled as a flat list of already-parsed chunk records (`RawChunk`);
  a missing directory is indistinguishable from an empty one (both give
  the empty list, as in the source).
* The FAISS index directory is modelled as an `FS` record holding the
  optional contents of the two artifacts `index.faiss` and `index.pkl`.
  `FAISS.save_local` writes a vector table and a docstore;
  `FAISS.load_local` succeeds only when both artifacts are present,
  deserialize, and are mutually consistent.
* The embedding model + FAISS ranking is abstracted as a `rank` function
  mapping the stored document list and a query string to a ranked list;
  theorems that need it assume `rank ds q` is a permutation of `ds`
  (FAISS ranks all stored vectors; `similarity_search` takes the top k).
* `json.loads` applied to a chat-history string is abstracted as a
  `jsonParse : String → Option (List ChatMsg)` parameter (`none` models
  a parse failure caught by the bare `except`).
* The remote chat-completion call (`self.llm.invoke`) is abstracted as
  an `oracle : String → String` from prompt to completion.
* Python exceptions are `Except RagError`; Python `str` truthiness is
  explicit (`none`/empty string are falsy).
-/

/-- One parsed line of a `*.jsonl` chunk file. `text` is mandatory
(`chunk["text"]` would raise otherwise); the other keys are read with
`chunk.get(..., default)` in `load_chunks`. -/
structure RawChunk where
  text : String
  chunk_id : Option Nat
  source_file : Option String
  token_count : Option Nat
  deriving Repr, DecidableEq

/-- Metadata attached to a LangChain `Document`. Fields are optional
because `generate_suggestion` re-reads them with `metadata.get`. -/
structure DocMeta where
  chunk_id : Option Nat
  source_file : Option String
  token_count : Option Nat
  deriving Repr, DecidableEq

/-- A LangChain `Document`: page content plus metadata. -/
structure Document where
  page_content : String
  metadata : DocMeta
  deriving Repr, DecidableEq

/-- `RAGService.load_chunks`: each chunk record becomes a `Document`
with defaults `chunk_id = 0`, `source_file = ""`, `token_count = 0`. -/
def load_chunks (chunkStore : List RawChunk) : List Document :=
  chunkStore.map fun c =>
    { page_content := c.text
      metadata :=
        { chunk_id := some (c.chunk_id.getD 0)
          source_file := some (c.source_file.getD "")
          token_count := some (c.token_count.getD 0) } }

/-- Content of the `index.faiss` artifact: the serialized vector table
(abstracted to its row count) or bytes that fail to deserialize. -/
inductive FaissFile where
  | vectors (n : Nat)
  | corruptF
  deriving Repr, DecidableEq

/-- Content of the `index.pkl` artifact: the pickled docstore or bytes
that fail to deserialize. -/
inductive PklFile where
  | docstore (docs : List Document)
  | corruptP
  deriving Repr, DecidableEq

/-- The index directory on disk: optional contents of the two co-located
artifacts FAISS persistence uses. -/
structure FS where
  index_faiss : Option FaissFile
  index_pkl : Option PklFile
  deriving Repr, DecidableEq

/-- An index directory with neither artifact present. -/
def emptyFS : FS := ⟨none, none⟩

/-- The in-memory FAISS vector store: the indexed documents in insertion
order (embedding vectors are recomputed from `page_content` by the fixed
embedding model, so they are not part of the state). -/
structure FAISSStore where
  docs : List Document
  deriving Repr, DecidableEq

/-- `FAISS.from_documents` (only invoked on a non-empty list in the
source; the empty case is guarded by `build_or_load_index`). -/
def FAISS_from_documents (docs : List Document) : FAISSStore := ⟨docs⟩

/-- `vectorstore.save_local(index_dir)`: writes both artifacts. -/
def FAISS_save_local (store : FAISSStore) (fs : FS) : FS :=
  { fs with
    index_faiss := some (.vectors store.docs.length)
    index_pkl := some (.docstore store.docs) }

/-- `FAISS.load_local(index_dir, embeddings, ...)`: deserializes both
artifacts; any missing, corrupt, or mutually inconsistent artifact
raises (modelled as `Except.error`). -/
def FAISS_load_local (fs : FS) : Except Unit FAISSStore :=
  match fs.index_faiss, fs.index_pkl with
  | some (.vectors n), some (.docstore ds) =>
      if n = ds.length then .ok ⟨ds⟩ else .error ()
  | _, _ => .error ()

/-- Abstract similarity ranking induced by the fixed embedding model:
given the stored documents and a query, the full similarity-descending
ordering. -/
abbrev Rank := List Document → String → List Document

/-- `vectorstore.similarity_search(query, k)`: top `k` of the ranking. -/
def similarity_search (rank : Rank) (store : FAISSStore) (query : String) (k : Nat) :
    List Document :=
  (rank store.docs query).take k

/-- Azure OpenAI client configuration captured by `AzureChatOpenAI`. -/
structure LLM where
  azure_endpoint : String
  deployment_name : String
  openai_api_version : String
  openai_api_key : String
  deriving Repr, DecidableEq

/-- The environment variables `initialize_llm` and the façades read.
`none` models an unset variable. -/
structure Env where
  api_key : Option String
  deployment_id : Option String
  api_version : Option String
  azure_endpoint : Option String
  deriving Repr, DecidableEq

/-- Python truthiness of an optional string: `None` and `""` are falsy. -/
def truthyOpt : Option String → Bool
  | none => false
  | some s => !s.isEmpty

/-- A raised Python exception (here always a `ValueError`). -/
inductive RagError where
  | valueError (msg : String)
  deriving Repr, DecidableEq

/-- The `str(e)` text the HTTP façade exposes. -/
def RagError.msg : RagError → String
  | .valueError m => m

/-- `RAGService` mutable state: `self.vectorstore` and `self.llm`
(the chunk/index directory paths are fixed per instance and appear in
the model as the `chunkStore`/`FS` parameters of the operations). -/
structure RAGService where
  vectorstore : Option FAISSStore
  llm : Option LLM
  deriving Repr, DecidableEq

/-- `RAGService.__init__`: both fields start as `None`. -/
def RAGService.init : RAGService := ⟨none, none⟩

/-- Result of `build_or_load_index`: the returned boolean, the updated
service state, and the updated index directory. -/
structure BuildResult where
  ok : Bool
  svc : RAGService
  fs : FS
  deriving Repr, DecidableEq

/-- The build half of `build_or_load_index` (from `chunks = self.load_chunks()`
on): empty chunk list returns `False` without touching any state;
otherwise builds the store, assigns `self.vectorstore`, and persists. -/
def buildNewIndex (svc : RAGService) (fs : FS) (chunkStore : List RawChunk) :
    BuildResult :=
  let chunks := load_chunks chunkStore
  if chunks.isEmpty then ⟨false, svc, fs⟩
  else
    let store := FAISS_from_documents chunks
    ⟨true, { svc with vectorstore := some store }, FAISS_save_local store fs⟩

/-- `RAGService.build_or_load_index(force_rebuild)`: load when both
artifact files exist and no rebuild is forced; a load exception falls
through to the build path. -/
def build_or_load_index (svc : RAGService) (fs : FS) (chunkStore : List RawChunk)
    (force_rebuild : Bool) : BuildResult :=
  let has_index := fs.index_faiss.isSome && fs.index_pkl.isSome
  if has_index && !force_rebuild then
    match FAISS_load_local fs with
    | .ok vs => ⟨true, { svc with vectorstore := some vs }, fs⟩
    | .error _ => buildNewIndex svc fs chunkStore
  else
    buildNewIndex svc fs chunkStore

/-- `RAGService.initialize_llm`: raises a `ValueError` when either
credential is falsy, else constructs the client (defaults applied for
the optional variables). -/
def initialize_llm (env : Env) : Except RagError LLM :=
  if !truthyOpt env.api_key || !truthyOpt env.deployment_id then
    .error (.valueError "API_KEY and DEPLOYMENT_ID must be set in environment variables")
  else
    .ok { azure_endpoint := env.azure_endpoint.getD "https://azureapi.zotgpt.uci.edu"
          deployment_name := env.deployment_id.getD ""
          openai_api_version := env.api_version.getD "2023-05-15"
          openai_api_key := env.api_key.getD "" }

/-- One entry of a structured chat history: a dict whose `role` and
`content` keys may be absent (read with `msg.get`). -/
structure ChatMsg where
  role : Option String
  content : Option String
  deriving Repr, DecidableEq

/-- The dynamically typed `chat_history` argument: `None`, a JSON
string, or an already-structured list of messages. -/
inductive ChatHistoryVal where
  | pyNone
  | str (s : String)
  | msgs (l : List ChatMsg)
  deriving Repr, DecidableEq

/-- `json.loads` on a chat-history string, abstracted: `none` is a
parse failure (caught by the bare `except`). -/
abbrev JsonParse := String → Option (List ChatMsg)

/-- Python truthiness of the `chat_history` value (`None`, `""` and
`[]` are falsy). -/
def ChatHistoryVal.truthy : ChatHistoryVal → Bool
  | .pyNone => false
  | .str s => !s.isEmpty
  | .msgs l => !l.isEmpty

/-- One iteration of the message loop in `format_chat_history`:
`role = msg.get("role", "user")`, `content = msg.get("content", "")`;
`user`/`assistant` roles produce a line, anything else is skipped. -/
def renderMsg (m : ChatMsg) : Option String :=
  let role := m.role.getD "user"
  let content := m.content.getD ""
  if role = "user" then some ("User: " ++ content)
  else if role = "assistant" then some ("Assistant: " ++ content)
  else none

/-- The value `format_chat_history` returns: the Python function
returns the empty list `[]` on falsy input and a string otherwise. -/
inductive FCHResult where
  | emptyList
  | text (s : String)
  deriving Repr, DecidableEq

/-- `RAGService.format_chat_history`. A string input is parsed as JSON;
on parse failure the bare `except` returns the raw input unchanged.
Structured input is assumed to be a list of dicts (other shapes would
raise inside the `try` and likewise return the input; the claims only
concern well-shaped input and failing strings). -/
def format_chat_history (jsonParse : JsonParse) (ch : ChatHistoryVal) : FCHResult :=
  if !ch.truthy then .emptyList
  else
    match ch with
    | .pyNone => .emptyList
    | .str s =>
        match jsonParse s with
        | none => .text s
        | some messages => .text (String.intercalate "\n" (messages.filterMap renderMsg))
    | .msgs l => .text (String.intercalate "\n" (l.filterMap renderMsg))

/-- `chat_context = self.format_chat_history(chat_history) if chat_history else ""`
as used by `generate_suggestion`, flattened to the string that reaches
the prompt (a falsy `format_chat_history` result contributes the empty
section either way). -/
def chatContextOf (jsonParse : JsonParse) (ch : ChatHistoryVal) : String :=
  if ch.truthy then
    match format_chat_history jsonParse ch with
    | .emptyList => ""
    | .text s => s
  else ""

/-- `f"[Reference {i}]\n{doc.page_content}"` blocks, numbering from
`enumerate(relevant_docs, 1)`. -/
def referenceBlocks : Nat → List Document → List String
  | _, [] => []
  | i, d :: ds => ("[Reference " ++ toString i ++ "]\n" ++ d.page_content) :: referenceBlocks (i + 1) ds

/-- `f"{label}{body}" if body else ""`: the three optional prompt
sections. -/
def sectionOr (label body : String) : String :=
  if body.isEmpty then "" else label ++ body

/-- The fixed instruction template of `generate_suggestion`, with the
four holes substituted (`prompt_template.format(...)`). -/
def assemblePrompt (context_section chat_section scratchpad_section query : String) : String :=
  "You are a software design mentor providing gentle, thought-provoking nudges to guide designers in their thinking process.\n\nThese nudges should be:\n- Short, gentle questions or prompts (1-2 sentences max)\n- Thought-provoking rather than prescriptive\n- Encouraging reflection on the problem, solution, or design process\n\n\nIMPORTANT: Generate ONLY a short nudge question or prompt (1-2 sentences). Do not provide full design suggestions or detailed explanations. Just the gentle nudge itself.\n\n"
    ++ context_section ++ "\n\n" ++ chat_section ++ "\n\n" ++ scratchpad_section
    ++ "\n\nBased on the above context, chat history, and scratchpad notes, generate a single gentle nudge prompt (a reflective question or gentle suggestion) that would help the designer think more deeply about the following query:\n\nQuery: "
    ++ query ++ "\n\nNudge Prompt (just the question/prompt, 1-2 sentences max):"

/-- `f"Scratchpad Notes:\n{scratchpad}" if scratchpad else ""`: the
`None` and empty-string cases both yield the empty section. -/
def scratchSection : Option String → String
  | some sp => sectionOr "Scratchpad Notes:\n" sp
  | none => ""

/-- One entry of the `references` list in the response. -/
structure SuggestionReference where
  chunk_id : Nat
  source : String
  preview : String
  deriving Repr, DecidableEq

/-- The references comprehension: `enumerate(relevant_docs, 1)` with
`metadata.get("chunk_id", i)`, `metadata.get("source_file", "unknown")`
and `doc.page_content[:200] + "..."`. -/
def referencesFrom : Nat → List Document → List SuggestionReference
  | _, [] => []
  | i, d :: ds =>
      { chunk_id := d.metadata.chunk_id.getD i
        source := d.metadata.source_file.getD "unknown"
        preview := d.page_content.take 200 ++ "..." } :: referencesFrom (i + 1) ds

/-- The dict `generate_suggestion` returns. -/
structure SuggestionResult where
  suggestion : String
  nudge : String
  references : List SuggestionReference
  deriving Repr, DecidableEq

/-- Side-effecting milestones inside `generate_suggestion`, recorded in
order: the lazy `initialize_llm` call, the `similarity_search` call,
and the remote `self.llm.invoke` call. -/
inductive Step where
  | llmInitStep
  | searchStep
  | invokeStep
  deriving Repr, DecidableEq

/-- Outcome of one `generate_suggestion` call: the returned dict or the
raised exception, the service state after the call (`self.llm` may have
been assigned), and the trace of milestones reached. -/
structure GenOutcome where
  result : Except RagError SuggestionResult
  svc : RAGService
  steps : List Step
  deriving Repr

/-- The remote chat model, abstracted as prompt ↦ completion text. -/
abbrev Oracle := String → String

/-- `RAGService.generate_suggestion(query, chat_history, scratchpad, k)`.
Raises when `self.vectorstore` is unset; lazily initializes `self.llm`
(a failure there propagates before any retrieval); then retrieves,
assembles the prompt, invokes the model, and builds the response. -/
def generate_suggestion (rank : Rank) (oracle : Oracle) (jsonParse : JsonParse)
    (env : Env) (svc : RAGService) (query : String) (chat_history : ChatHistoryVal)
    (scratchpad : Option String) (k : Nat) : GenOutcome :=
  match svc.vectorstore with
  | none =>
      ⟨.error (.valueError "Vector store not initialized. Call build_or_load_index() first."),
        svc, []⟩
  | some vs =>
      let initState : Except RagError (LLM × RAGService × List Step) :=
        match svc.llm with
        | some llm => .ok (llm, svc, [])
        | none =>
            match initialize_llm env with
            | .error e => .error e
            | .ok llm => .ok (llm, { svc with llm := some llm }, [.llmInitStep])
      match initState with
      | .error e => ⟨.error e, svc, [.llmInitStep]⟩
      | .ok (_, svc1, steps1) =>
          let relevant_docs := similarity_search rank vs query k
          let context := String.intercalate "\n\n" (referenceBlocks 1 relevant_docs)
          let chat_context := chatContextOf jsonParse chat_history
          let context_section := sectionOr "Relevant Knowledge:\n" context
          let chat_section := sectionOr "Chat History:\n" chat_context
          let scratchpad_section := scratchSection scratchpad
          let prompt := assemblePrompt context_section chat_section scratchpad_section query
          let response := oracle prompt
          ⟨.ok { suggestion := response, nudge := response
                 references := referencesFrom 1 relevant_docs },
            svc1, steps1 ++ [.searchStep, .invokeStep]⟩

/-- JSON bodies the Flask façade returns. -/
inductive RespBody where
  | suggestBody (suggestion nudge : String) (references : List SuggestionReference)
  | errorBody (error : String)
  | statusBody (status : String)
  deriving Repr, DecidableEq

/-- An HTTP response: status code and JSON body. -/
structure HttpResponse where
  status : Nat
  body : RespBody
  deriving Repr, DecidableEq

/-- `GET /health`. -/
def health : HttpResponse := ⟨200, .statusBody "healthy"⟩

/-- The parsed JSON body of a `POST /api/rag/suggest` request; absent
keys are `none` (`data.get`). Non-dict bodies are outside the model
(they raise before the `query` check and yield a 500). -/
structure SuggestRequest where
  query : Option String
  chat_history : ChatHistoryVal
  scratchpad : Option String
  k : Option Nat
  deriving Repr, DecidableEq

/-- Process-wide server state: the `rag_service` global singleton and
the index directory on disk. -/
structure ServerState where
  rag_service : Option RAGService
  fs : FS
  deriving Repr, DecidableEq

/-- `get_rag_service()`: lazily constructs the singleton. Note the
global is assigned *before* `build_or_load_index` and `initialize_llm`
run, so a failing `initialize_llm` still leaves the fresh (llm-less)
instance installed; the boolean result of `build_or_load_index` is
ignored. -/
def get_rag_service (env : Env) (chunkStore : List RawChunk) (st : ServerState) :
    Except RagError RAGService × ServerState :=
  match st.rag_service with
  | some svc => (.ok svc, st)
  | none =>
      let b := build_or_load_index RAGService.init st.fs chunkStore false
      match initialize_llm env with
      | .error e => (.error e, ⟨some b.svc, b.fs⟩)
      | .ok llm =>
          let svc := { b.svc with llm := some llm }
          (.ok svc, ⟨some svc, b.fs⟩)

/-- Outcome of one HTTP request: the response, the server state after
it, and the trace of `generate_suggestion` milestones reached (empty
when `generate_suggestion` was never entered). -/
structure HandlerOutcome where
  response : HttpResponse
  st : ServerState
  generateCalled : Bool
  steps : List Step
  deriving Repr

/-- `POST /api/rag/suggest`: 400 when `query` is missing or falsy
(before the service is even touched); otherwise proxies to
`generate_suggestion`, converting an exception to a 500 with the
exception text. -/
def rag_suggest (rank : Rank) (oracle : Oracle) (jsonParse : JsonParse)
    (env : Env) (chunkStore : List RawChunk) (body : SuggestRequest)
    (st : ServerState) : HandlerOutcome :=
  if !truthyOpt body.query then
    ⟨⟨400, .errorBody "query is required"⟩, st, false, []⟩
  else
    match get_rag_service env chunkStore st with
    | (.error e, st1) => ⟨⟨500, .errorBody e.msg⟩, st1, false, []⟩
    | (.ok rag, st1) =>
        let g := generate_suggestion rank oracle jsonParse env rag
          (body.query.getD "") body.chat_history body.scratchpad (body.k.getD 3)
        let st2 : ServerState := { st1 with rag_service := some g.svc }
        match g.result with
        | .error e => ⟨⟨500, .errorBody e.msg⟩, st2, true, g.steps⟩
        | .ok r =>
            ⟨⟨200, .suggestBody r.suggestion r.nudge r.references⟩, st2, true, g.steps⟩

/-- `POST /api/rag/rebuild-index`: replaces the global singleton with a
fresh instance, forces a rebuild (ignoring its boolean result), and
re-initializes the LLM; any exception yields a 500 — with the already
replaced singleton left in place. -/
def rebuild_index (env : Env) (chunkStore : List RawChunk) (st : ServerState) :
    HttpResponse × ServerState :=
  let b := build_or_load_index RAGService.init st.fs chunkStore true
  match initialize_llm env with
  | .error e => (⟨500, .errorBody e.msg⟩, ⟨some b.svc, b.fs⟩)
  | .ok llm => (⟨200, .statusBody "Index rebuilt successfully"⟩,
      ⟨some { b.svc with llm := some llm }, b.fs⟩)

/-- Outcome of the CLI `main()` path up to printing. -/
structure CliOutcome where
  result : Except RagError SuggestionResult
  generateCalled : Bool
  deriving Repr

/-- `rag_inference.main()`: builds/loads the index, then calls
`initialize_llm` *before* any `generate_suggestion`; a configuration
error therefore aborts startup and the suggestion step is never
reached. -/
def cli_main (rank : Rank) (oracle : Oracle) (jsonParse : JsonParse) (env : Env)
    (fs : FS) (chunkStore : List RawChunk) (query : String)
    (chat_history : ChatHistoryVal) (scratchpad : Option String) (k : Nat) :
    CliOutcome :=
  let b := build_or_load_index RAGService.init fs chunkStore false
  match initialize_llm env with
  | .error e => ⟨.error e, false⟩
  | .ok llm =>
      let svc := { b.svc with llm := some llm }
      let g := generate_suggestion rank oracle jsonParse env svc query
        chat_history scratchpad k
      ⟨g.result, true⟩

/-! ## Shared helper lemmas -/

/-- The references comprehension yields one entry per retrieved document. -/
theorem referencesFrom_length (i : Nat) (ds : List Document) :
    (referencesFrom i ds).length = ds.length := by
  induction ds generalizing i with
  | nil => rfl
  | cons d ds ih => simp [referencesFrom, ih]

/-- Every reference entry is built from one of the retrieved documents,
with the source taken from its metadata and the preview from the first
200 characters of its text. -/
theorem referencesFrom_mem (i : Nat) (ds : List Document) (ref : SuggestionReference)
    (h : ref ∈ referencesFrom i ds) :
    ∃ d ∈ ds, ref.source = d.metadata.source_file.getD "unknown" ∧
      ref.preview = d.page_content.take 200 ++ "..." := by
  induction ds generalizing i with
  | nil => simp [referencesFrom] at h
  | cons d ds ih =>
      simp only [referencesFrom, List.mem_cons] at h
      rcases h with h | h
      · exact ⟨d, List.mem_cons_self .., by simp [h]⟩
      · obtain ⟨d, hd, hs, hp⟩ := ih (i + 1) h
        exact ⟨d, List.mem_cons_of_mem _ hd, hs, hp⟩

/-- `build_or_load_index` never touches `self.llm`. -/
theorem build_or_load_index_llm (svc : RAGService) (fs : FS) (cs : List RawChunk)
    (force : Bool) : (build_or_load_index svc fs cs force).svc.llm = svc.llm := by
  unfold build_or_load_index buildNewIndex
  dsimp only
  repeat' split
  all_goals rfl

/-- The build half on an empty chunk store returns `False` and changes
nothing. -/
theorem buildNewIndex_empty (svc : RAGService) (fs : FS) :
    buildNewIndex svc fs [] = ⟨false, svc, fs⟩ := by
  simp [buildNewIndex, load_chunks]

/-! ## Claim theorems -/

/-- C9: calling `generate_suggestion` while the vector store is unset
raises the "not initialized" `ValueError` immediately: no retrieval
step, no LLM step (empty trace), and the service state is returned
unchanged. -/
theorem C9_generate_before_ready_fails (rank : Rank) (oracle : Oracle)
    (jsonParse : JsonParse) (env : Env) (svc : RAGService) (query : String)
    (ch : ChatHistoryVal) (sp : Option String) (k : Nat)
    (h : svc.vectorstore = none) :
    generate_suggestion rank oracle jsonParse env svc query ch sp k =
      ⟨.error (.valueError "Vector store not initialized. Call build_or_load_index() first."),
        svc, []⟩ := by
  simp [generate_suggestion, h]

/-- Witness for C9 at a freshly constructed service. -/
theorem C9_generate_before_ready_fails_witness :
    RAGService.init.vectorstore = none ∧
    generate_suggestion (fun ds _ => ds) (fun _ => "") (fun _ => none)
      ⟨none, none, none, none⟩ RAGService.init "q" .pyNone none 3 =
      ⟨.error (.valueError "Vector store not initialized. Call build_or_load_index() first."),
        RAGService.init, []⟩ :=
  ⟨rfl, C9_generate_before_ready_fails _ _ _ _ _ _ _ _ _ rfl⟩

/-- C2: whenever the build path runs (no complete artifact pair, a
forced rebuild, or a failing load) and the chunk store yields no
chunks, `build_or_load_index` returns `False` and leaves the service —
in particular `self.vectorstore` — and the index directory untouched:
no empty index is constructed. -/
theorem C2_empty_chunk_store_build_fails (svc : RAGService) (fs : FS) (force : Bool)
    (h : fs.index_faiss = none ∨ fs.index_pkl = none ∨ force = true ∨
      FAISS_load_local fs = .error ()) :
    build_or_load_index svc fs [] force = ⟨false, svc, fs⟩ := by
  have hb := buildNewIndex_empty svc fs
  unfold build_or_load_index
  rcases h with h | h | h | h
  · simp [h, hb]
  · simp [h, hb]
  · simp [h, hb]
  · split <;> simp_all [hb]

/-- Witness for C2 on an empty index directory. -/
theorem C2_empty_chunk_store_build_fails_witness :
    (emptyFS.index_faiss = none ∨ emptyFS.index_pkl = none ∨ False ∨
      FAISS_load_local emptyFS = .error ()) ∧
    build_or_load_index RAGService.init emptyFS [] false =
      ⟨false, RAGService.init, emptyFS⟩ :=
  ⟨Or.inl rfl, C2_empty_chunk_store_build_fails _ _ _ (Or.inl rfl)⟩

/-- C3: whenever loading the persisted index cannot succeed — an
artifact file is missing (so `has_index` is false and the load is never
attempted) or `FAISS.load_local` raises on what is on disk —
`build_or_load_index` runs exactly the build-from-chunk-store path
instead of propagating a load error. -/
theorem C3_load_failure_falls_back_to_build (svc : RAGService) (fs : FS)
    (cs : List RawChunk)
    (h : fs.index_faiss = none ∨ fs.index_pkl = none ∨
      FAISS_load_local fs = .error ()) :
    build_or_load_index svc fs cs false = buildNewIndex svc fs cs := by
  unfold build_or_load_index
  rcases h with h | h | h
  · simp [h]
  · simp [h]
  · split <;> simp_all

/-- Witness for C3 on a directory whose metadata artifact is corrupt. -/
theorem C3_load_failure_falls_back_to_build_witness :
    ((FS.mk (some (.vectors 1)) (some .corruptP)).index_faiss = none ∨
      (FS.mk (some (.vectors 1)) (some .corruptP)).index_pkl = none ∨
      FAISS_load_local ⟨some (.vectors 1), some .corruptP⟩ = .error ()) ∧
    build_or_load_index RAGService.init ⟨some (.vectors 1), some .corruptP⟩
        [⟨"t", none, none, none⟩] false =
      buildNewIndex RAGService.init ⟨some (.vectors 1), some .corruptP⟩
        [⟨"t", none, none, none⟩] :=
  ⟨Or.inr (Or.inr rfl),
    C3_load_failure_falls_back_to_build _ _ _ (Or.inr (Or.inr rfl))⟩

/-- C6: a suggest request whose `query` is absent or falsy gets the 400
response with an `error` field, the server state is untouched, and
`generate_suggestion` is never invoked (empty trace, flag false). -/
theorem C6_missing_query_400 (rank : Rank) (oracle : Oracle) (jsonParse : JsonParse)
    (env : Env) (cs : List RawChunk) (body : SuggestRequest) (st : ServerState)
    (h : truthyOpt body.query = false) :
    rag_suggest rank oracle jsonParse env cs body st =
      ⟨⟨400, .errorBody "query is required"⟩, st, false, []⟩ := by
  simp [rag_suggest, h]

/-- Witness for C6 at a request body with no `query` key. -/
theorem C6_missing_query_400_witness :
    truthyOpt (SuggestRequest.mk none .pyNone none none).query = false ∧
    rag_suggest (fun ds _ => ds) (fun _ => "x") (fun _ => none)
      ⟨none, none, none, none⟩ [] ⟨none, .pyNone, none, none⟩ ⟨none, emptyFS⟩ =
      ⟨⟨400, .errorBody "query is required"⟩, ⟨none, emptyFS⟩, false, []⟩ :=
  ⟨rfl, C6_missing_query_400 _ _ _ _ _ _ _ rfl⟩

/-- C1: building from a non-empty chunk store (which persists the two
artifacts) and then running `build_or_load_index` on a fresh service
instance over the persisted directory yields a loaded store whose
`similarity_search` results agree with the pre-persist store for every
query and k — same ordering, same documents (hence identifiers). -/
theorem C1_build_persist_load_search_identical (cs : List RawChunk) (h : cs ≠ [])
    (fs : FS) (rank : Rank) :
    (build_or_load_index RAGService.init fs cs true).ok = true ∧
    (build_or_load_index RAGService.init
        (build_or_load_index RAGService.init fs cs true).fs cs false).ok = true ∧
    ∃ vs1 vs2,
      (build_or_load_index RAGService.init fs cs true).svc.vectorstore = some vs1 ∧
      (build_or_load_index RAGService.init
          (build_or_load_index RAGService.init fs cs true).fs cs false).svc.vectorstore
        = some vs2 ∧
      ∀ q k, similarity_search rank vs2 q k = similarity_search rank vs1 q k := by
  obtain ⟨c, cs', rfl⟩ := List.exists_cons_of_ne_nil h
  have h1 : build_or_load_index RAGService.init fs (c :: cs') true =
      ⟨true, ⟨some ⟨load_chunks (c :: cs')⟩, none⟩,
        FAISS_save_local ⟨load_chunks (c :: cs')⟩ fs⟩ := by
    simp [build_or_load_index, buildNewIndex, FAISS_from_documents, load_chunks,
      RAGService.init]
  have h2 : FAISS_load_local
      ⟨some (.vectors (load_chunks (c :: cs')).length),
        some (.docstore (load_chunks (c :: cs')))⟩ =
      .ok ⟨load_chunks (c :: cs')⟩ := by
    simp [FAISS_load_local]
  have h3 : build_or_load_index RAGService.init
      (FAISS_save_local ⟨load_chunks (c :: cs')⟩ fs) (c :: cs') false =
      ⟨true, ⟨some ⟨load_chunks (c :: cs')⟩, none⟩,
        FAISS_save_local ⟨load_chunks (c :: cs')⟩ fs⟩ := by
    simp [build_or_load_index, FAISS_save_local, RAGService.init, h2]
  rw [h1, h3]
  exact ⟨rfl, rfl, ⟨load_chunks (c :: cs')⟩, ⟨load_chunks (c :: cs')⟩, rfl, rfl,
    fun q k => rfl⟩

/-- Witness for C1 at a one-chunk store and an empty index directory. -/
theorem C1_build_persist_load_search_identical_witness :
    ([⟨"caching", some 1, some "book.pdf", some 2⟩] : List RawChunk) ≠ [] ∧
    ((build_or_load_index RAGService.init emptyFS
        [⟨"caching", some 1, some "book.pdf", some 2⟩] true).ok = true ∧
    (build_or_load_index RAGService.init
        (build_or_load_index RAGService.init emptyFS
          [⟨"caching", some 1, some "book.pdf", some 2⟩] true).fs
        [⟨"caching", some 1, some "book.pdf", some 2⟩] false).ok = true ∧
    ∃ vs1 vs2,
      (build_or_load_index RAGService.init emptyFS
          [⟨"caching", some 1, some "book.pdf", some 2⟩] true).svc.vectorstore
        = some vs1 ∧
      (build_or_load_index RAGService.init
          (build_or_load_index RAGService.init emptyFS
            [⟨"caching", some 1, some "book.pdf", some 2⟩] true).fs
          [⟨"caching", some 1, some "book.pdf", some 2⟩] false).svc.vectorstore
        = some vs2 ∧
      ∀ q k, similarity_search (fun ds _ => ds) vs2 q k =
        similarity_search (fun ds _ => ds) vs1 q k) :=
  ⟨by decide,
    C1_build_persist_load_search_identical _ (by decide) emptyFS (fun ds _ => ds)⟩

/-- The per-entry rendering rule exactly as the specification states it
(spec-side definition, to be compared against the source-side
`renderMsg`): a `user` entry becomes a `User:` line, an `assistant`
entry an `Assistant:` line, and an entry with any other role value is
dropped. -/
def renderLineSpec (m : ChatMsg) : Option String :=
  match m.role with
  | some r =>
      if r = "user" then some ("User: " ++ m.content.getD "")
      else if r = "assistant" then some ("Assistant: " ++ m.content.getD "")
      else none
  | none => none

/-- C5: on a non-empty structured history whose entries carry explicit
roles, `format_chat_history` renders exactly the specified lines — one
`User:`/`Assistant:` line per recognized entry, other roles silently
dropped, original order preserved (the rendering is an order-preserving
`filterMap`). -/
theorem C5_format_chat_history_renders (jsonParse : JsonParse) (l : List ChatMsg)
    (h1 : l ≠ []) (h2 : ∀ m ∈ l, m.role.isSome) :
    format_chat_history jsonParse (.msgs l) =
      .text (String.intercalate "\n" (l.filterMap renderLineSpec)) := by
  have ht : (ChatHistoryVal.msgs l).truthy = true := by
    simp [ChatHistoryVal.truthy, h1]
  have hr : l.filterMap renderMsg = l.filterMap renderLineSpec := by
    apply List.filterMap_congr
    intro m hm
    obtain ⟨r, hrr⟩ := Option.isSome_iff_exists.mp (h2 m hm)
    simp [renderMsg, renderLineSpec, hrr]
  simp [format_chat_history, ht, hr]

/-- Witness for C5 on the spec example: a single user turn plus a
`system` turn; the system entry is omitted and the rendered history is
the single expected line. -/
theorem C5_format_chat_history_renders_witness :
    ([⟨some "user", some "My API is slow"⟩, ⟨some "system", some "be brief"⟩] :
        List ChatMsg) ≠ [] ∧
    format_chat_history (fun _ => none)
      (.msgs [⟨some "user", some "My API is slow"⟩, ⟨some "system", some "be brief"⟩]) =
      .text "User: My API is slow" := by
  refine ⟨by decide, ?_⟩
  have h := C5_format_chat_history_renders (fun _ => none)
    [⟨some "user", some "My API is slow"⟩, ⟨some "system", some "be brief"⟩]
    (by decide) (by decide)
  exact h.trans (by decide)

/-- C8: when the chat-history string fails to parse as JSON, the bare
`except` returns the raw string unchanged, the chat-history section of
the assembled prompt contains it verbatim, and `generate_suggestion`
completes normally with an `ok` response — the parse failure never
fails the request. -/
theorem C8_parse_failure_opaque_blob (jsonParse : JsonParse) (s : String)
    (hs : s ≠ "") (hp : jsonParse s = none) (rank : Rank) (oracle : Oracle)
    (env : Env) (svc : RAGService) (vs : FAISSStore) (llm : LLM)
    (hvs : svc.vectorstore = some vs) (hllm : svc.llm = some llm)
    (query : String) (sp : Option String) (k : Nat) :
    format_chat_history jsonParse (.str s) = .text s ∧
    generate_suggestion rank oracle jsonParse env svc query (.str s) sp k =
      ⟨.ok { suggestion := oracle (assemblePrompt
                (sectionOr "Relevant Knowledge:\n"
                  (String.intercalate "\n\n"
                    (referenceBlocks 1 (similarity_search rank vs query k))))
                ("Chat History:\n" ++ s) (scratchSection sp) query)
             nudge := oracle (assemblePrompt
                (sectionOr "Relevant Knowledge:\n"
                  (String.intercalate "\n\n"
                    (referenceBlocks 1 (similarity_search rank vs query k))))
                ("Chat History:\n" ++ s) (scratchSection sp) query)
             references := referencesFrom 1 (similarity_search rank vs query k) },
        svc, [.searchStep, .invokeStep]⟩ := by
  have hse : s.isEmpty = false := by
    rcases hb : s.isEmpty with _ | _
    · rfl
    · exact absurd ((String.isEmpty_iff s).mp hb) hs
  constructor
  · simp [format_chat_history, ChatHistoryVal.truthy, hse, hp]
  · simp [generate_suggestion, hvs, hllm, chatContextOf, format_chat_history,
      ChatHistoryVal.truthy, hse, hp, sectionOr]

/-- Witness for C8 at a concrete non-JSON history string. -/
theorem C8_parse_failure_opaque_blob_witness :
    ("oops" ≠ "" ∧ (fun _ => (none : Option (List ChatMsg))) "oops" = none) ∧
    format_chat_history (fun _ => none) (.str "oops") = .text "oops" ∧
    generate_suggestion (fun ds _ => ds) (fun _ => "n") (fun _ => none)
      ⟨none, none, none, none⟩ ⟨some ⟨[]⟩, some ⟨"e", "d", "v", "k"⟩⟩
      "q" (.str "oops") none 3 =
      ⟨.ok { suggestion := "n", nudge := "n", references := [] },
        ⟨some ⟨[]⟩, some ⟨"e", "d", "v", "k"⟩⟩, [.searchStep, .invokeStep]⟩ :=
  ⟨⟨by decide, rfl⟩,
    (C8_parse_failure_opaque_blob (fun _ => none) "oops" (by decide) rfl
      (fun ds _ => ds) (fun _ => "n") ⟨none, none, none, none⟩
      ⟨some ⟨[]⟩, some ⟨"e", "d", "v", "k"⟩⟩ ⟨[]⟩ ⟨"e", "d", "v", "k"⟩ rfl rfl
      "q" none 3).1,
    (C8_parse_failure_opaque_blob (fun _ => none) "oops" (by decide) rfl
      (fun ds _ => ds) (fun _ => "n") ⟨none, none, none, none⟩
      ⟨some ⟨[]⟩, some ⟨"e", "d", "v", "k"⟩⟩ ⟨[]⟩ ⟨"e", "d", "v", "k"⟩ rfl rfl
      "q" none 3).2⟩

set_option maxRecDepth 8192 in
/-- C4 counterexample: an index built from three chunk records that
carry no `source_file` key. `load_chunks` defaults the metadata to the
empty string, so every reference entry of `generate_suggestion` (k = 3)
has `source = ""` — refuting the claim that each of the three entries
has a non-empty `source`. -/
theorem C4_counterexample_empty_source :
    (generate_suggestion (fun ds _ => ds) (fun _ => "n") (fun _ => none)
        ⟨some "k", some "d", none, none⟩
        (build_or_load_index RAGService.init emptyFS
          [⟨"alpha", none, none, none⟩, ⟨"beta", none, none, none⟩,
            ⟨"gamma", none, none, none⟩] false).svc "q" .pyNone none 3).result =
      .ok { suggestion := "n", nudge := "n"
            references := [⟨0, "", "alpha..."⟩, ⟨0, "", "beta..."⟩,
              ⟨0, "", "gamma..."⟩] } := by
  rfl

/-- C4 (amended): with k = 3 against an index built from at least 3
chunk records, `generate_suggestion` returns exactly 3 reference
entries; the `source` of each entry is the source-file metadata of the
retrieved document — which `load_chunks` defaults to the *empty* string
when the record lacks one, so it need not be non-empty — and each
`preview` is the first 200 characters of the passage text followed by
an ellipsis. -/
theorem C4_amended_k3_references (rank : Rank)
    (hrank : ∀ ds q, (rank ds q).Perm ds) (oracle : Oracle)
    (jsonParse : JsonParse) (env : Env) (llm : LLM) (cs : List RawChunk)
    (h3 : 3 ≤ cs.length) (query : String) (ch : ChatHistoryVal)
    (sp : Option String) :
    ∃ r, (generate_suggestion rank oracle jsonParse env
        ⟨some ⟨load_chunks cs⟩, some llm⟩ query ch sp 3).result = .ok r ∧
      r.references.length = 3 ∧
      ∀ ref ∈ r.references, ∃ d ∈ load_chunks cs,
        ref.source = d.metadata.source_file.getD "unknown" ∧
        ref.preview = d.page_content.take 200 ++ "..." := by
  refine ⟨_, rfl, ?_, ?_⟩
  · have hlen : (rank (load_chunks cs) query).length = cs.length := by
      have h := (hrank (load_chunks cs) query).length_eq
      simpa [load_chunks] using h
    show (referencesFrom 1 (similarity_search rank ⟨load_chunks cs⟩ query 3)).length = 3
    rw [referencesFrom_length]
    simp only [similarity_search, List.length_take, hlen]
    omega
  · intro ref href
    obtain ⟨d, hd, hsrc, hprev⟩ := referencesFrom_mem _ _ _ href
    refine ⟨d, ?_, hsrc, hprev⟩
    have hmem : d ∈ rank (load_chunks cs) query :=
      List.take_subset _ _ hd
    exact (hrank _ _).mem_iff.mp hmem

/-- Witness for the amended C4 at three concrete chunks with the
identity ranking. -/
theorem C4_amended_k3_references_witness :
    (∀ ds q, (((fun ds _ => ds) : Rank) ds q).Perm ds) ∧
    3 ≤ ([⟨"alpha", some 1, some "a.pdf", none⟩, ⟨"beta", some 2, some "b.pdf", none⟩,
      ⟨"gamma", some 3, none, none⟩] : List RawChunk).length ∧
    ∃ r, (generate_suggestion (fun ds _ => ds) (fun _ => "n") (fun _ => none)
        ⟨none, none, none, none⟩
        ⟨some ⟨load_chunks [⟨"alpha", some 1, some "a.pdf", none⟩,
          ⟨"beta", some 2, some "b.pdf", none⟩, ⟨"gamma", some 3, none, none⟩]⟩,
          some ⟨"e", "d", "v", "k"⟩⟩ "q" .pyNone none 3).result = .ok r ∧
      r.references.length = 3 ∧
      ∀ ref ∈ r.references, ∃ d ∈ load_chunks [⟨"alpha", some 1, some "a.pdf", none⟩,
          ⟨"beta", some 2, some "b.pdf", none⟩, ⟨"gamma", some 3, none, none⟩],
        ref.source = d.metadata.source_file.getD "unknown" ∧
        ref.preview = d.page_content.take 200 ++ "..." :=
  ⟨fun ds _ => List.Perm.refl ds, by decide,
    C4_amended_k3_references (fun ds _ => ds) (fun ds _ => List.Perm.refl ds)
      (fun _ => "n") (fun _ => none) ⟨none, none, none, none⟩ ⟨"e", "d", "v", "k"⟩
      _ (by decide) "q" .pyNone none⟩

/-- A server state whose singleton (if constructed) has no initialized
LLM client. With absent credentials every constructor of the singleton
leaves `self.llm = None`, so this invariant holds for every reachable
state. -/
def ServerState.llmFree (st : ServerState) : Bool :=
  match st.rag_service with
  | none => true
  | some svc => svc.llm.isNone

/-- C7: with either credential absent, `initialize_llm` raises the
configuration `ValueError`; the CLI path aborts at startup before
`generate_suggestion` is ever called; every HTTP suggest request on a
reachable (llm-free) state fails without reaching the remote-call step
and preserves the invariant; and the rebuild endpoint answers 500 while
also preserving it. The configuration error therefore always precedes
the remote call, on every execution path. -/
theorem C7_missing_credentials_fail_fast (env : Env)
    (h : truthyOpt env.api_key = false ∨ truthyOpt env.deployment_id = false) :
    initialize_llm env =
      .error (.valueError "API_KEY and DEPLOYMENT_ID must be set in environment variables") ∧
    (∀ rank oracle jsonParse fs cs query ch sp k,
      (cli_main rank oracle jsonParse env fs cs query ch sp k).generateCalled = false ∧
      (cli_main rank oracle jsonParse env fs cs query ch sp k).result =
        .error (.valueError "API_KEY and DEPLOYMENT_ID must be set in environment variables")) ∧
    (∀ rank oracle jsonParse cs body st, ServerState.llmFree st = true →
      Step.invokeStep ∉ (rag_suggest rank oracle jsonParse env cs body st).steps ∧
      ServerState.llmFree (rag_suggest rank oracle jsonParse env cs body st).st = true) ∧
    (∀ cs st, (rebuild_index env cs st).1.status = 500 ∧
      ServerState.llmFree (rebuild_index env cs st).2 = true) := by
  have hinit : initialize_llm env =
      .error (.valueError "API_KEY and DEPLOYMENT_ID must be set in environment variables") := by
    rcases h with h | h <;> simp [initialize_llm, h]
  refine ⟨hinit, ?_, ?_, ?_⟩
  · intro rank oracle jsonParse fs cs query ch sp k
    constructor <;> simp [cli_main, hinit]
  · intro rank oracle jsonParse cs body st hfree
    rcases hq : truthyOpt body.query with _ | _
    · constructor <;> simp [rag_suggest, hq, hfree]
    · rcases hsvc : st.rag_service with _ | svc
      · have hb := build_or_load_index_llm RAGService.init st.fs cs false
        simp [RAGService.init] at hb
        constructor <;>
          simp [rag_suggest, hq, get_rag_service, hsvc, hinit,
            ServerState.llmFree, RAGService.init, hb]
      · have hllm : svc.llm = none := by
          simp [ServerState.llmFree, hsvc, Option.isNone_iff_eq_none] at hfree
          exact hfree
        rcases hvs : svc.vectorstore with _ | vs
        · constructor <;>
            simp [rag_suggest, hq, get_rag_service, hsvc, generate_suggestion,
              hvs, ServerState.llmFree, hllm]
        · constructor <;>
            simp [rag_suggest, hq, get_rag_service, hsvc, generate_suggestion,
              hvs, hllm, hinit, ServerState.llmFree]
  · intro cs st
    have hb := build_or_load_index_llm RAGService.init st.fs cs true
    simp [RAGService.init] at hb
    constructor <;>
      simp [rebuild_index, hinit, ServerState.llmFree, RAGService.init, hb]

/-- Witness for C7 with only the deployment id set. -/
theorem C7_missing_credentials_fail_fast_witness :
    (truthyOpt (Env.mk none (some "d") none none).api_key = false ∨
      truthyOpt (Env.mk none (some "d") none none).deployment_id = false) ∧
    initialize_llm ⟨none, some "d", none, none⟩ =
      .error (.valueError "API_KEY and DEPLOYMENT_ID must be set in environment variables") ∧
    (cli_main (fun ds _ => ds) (fun _ => "n") (fun _ => none)
      ⟨none, some "d", none, none⟩ emptyFS [] "q" .pyNone none 3).generateCalled = false ∧
    Step.invokeStep ∉ (rag_suggest (fun ds _ => ds) (fun _ => "n") (fun _ => none)
      ⟨none, some "d", none, none⟩ [] ⟨some "q", .pyNone, none, none⟩
      ⟨none, emptyFS⟩).steps :=
  ⟨Or.inl rfl,
    (C7_missing_credentials_fail_fast ⟨none, some "d", none, none⟩ (Or.inl rfl)).1,
    ((C7_missing_credentials_fail_fast ⟨none, some "d", none, none⟩ (Or.inl rfl)).2.1
      (fun ds _ => ds) (fun _ => "n") (fun _ => none) emptyFS [] "q" .pyNone none 3).1,
    ((C7_missing_credentials_fail_fast ⟨none, some "d", none, none⟩ (Or.inl rfl)).2.2.1
      (fun ds _ => ds) (fun _ => "n") (fun _ => none) [] ⟨some "q", .pyNone, none, none⟩
      ⟨none, emptyFS⟩ rfl).1⟩

/-- C10: with valid credentials and an empty chunk store, the rebuild
endpoint replaces the singleton with a fresh instance whose
`vectorstore` is `None` yet answers 200 with the success status (the
`False` from `build_or_load_index` is ignored); every subsequent
suggest request with a valid query then fails 500 with the "not
initialized" message instead of using any previously ready index.
Moreover the singleton is replaced before the rebuild outcome is known:
even when `initialize_llm` fails, the old service is already gone and
the fresh (store-less) instance is installed. -/
theorem C10_rebuild_empty_store_breaks_singleton (env : Env) (st : ServerState)
    (hkey : truthyOpt env.api_key = true) (hdep : truthyOpt env.deployment_id = true) :
    (rebuild_index env [] st).1 = ⟨200, .statusBody "Index rebuilt successfully"⟩ ∧
    (∃ svc, (rebuild_index env [] st).2.rag_service = some svc ∧
      svc.vectorstore = none) ∧
    (∀ rank oracle jsonParse cs body, truthyOpt body.query = true →
      (rag_suggest rank oracle jsonParse env cs body (rebuild_index env [] st).2).response =
        ⟨500, .errorBody "Vector store not initialized. Call build_or_load_index() first."⟩) ∧
    (∀ env2, truthyOpt env2.api_key = false →
      (rebuild_index env2 [] st).1.status = 500 ∧
      (rebuild_index env2 [] st).2.rag_service = some RAGService.init) := by
  have hbuild : build_or_load_index RAGService.init st.fs [] true =
      ⟨false, RAGService.init, st.fs⟩ := by
    simp [build_or_load_index, buildNewIndex_empty]
  simp only [RAGService.init] at hbuild
  have hllm : initialize_llm env =
      .ok ⟨env.azure_endpoint.getD "https://azureapi.zotgpt.uci.edu",
        env.deployment_id.getD "", env.api_version.getD "2023-05-15",
        env.api_key.getD ""⟩ := by
    simp [initialize_llm, hkey, hdep]
  have hreb : rebuild_index env [] st =
      (⟨200, .statusBody "Index rebuilt successfully"⟩,
        ⟨some ⟨none, some ⟨env.azure_endpoint.getD "https://azureapi.zotgpt.uci.edu",
          env.deployment_id.getD "", env.api_version.getD "2023-05-15",
          env.api_key.getD ""⟩⟩, st.fs⟩) := by
    simp [rebuild_index, hbuild, hllm, RAGService.init]
  refine ⟨by rw [hreb], ⟨_, by rw [hreb], rfl⟩, ?_, ?_⟩
  · intro rank oracle jsonParse cs body hq
    rw [hreb]
    simp [rag_suggest, hq, get_rag_service, generate_suggestion, RagError.msg]
  · intro env2 hk2
    have hinit2 : initialize_llm env2 =
        .error (.valueError "API_KEY and DEPLOYMENT_ID must be set in environment variables") := by
      simp [initialize_llm, hk2]
    constructor <;> simp [rebuild_index, RAGService.init, hbuild, hinit2]

/-- Witness for C10 at concrete credentials, an empty chunk store and a
fresh server state. -/
theorem C10_rebuild_empty_store_breaks_singleton_witness :
    truthyOpt (Env.mk (some "k") (some "d") none none).api_key = true ∧
    truthyOpt (Env.mk (some "k") (some "d") none none).deployment_id = true ∧
    (rebuild_index ⟨some "k", some "d", none, none⟩ [] ⟨none, emptyFS⟩).1 =
      ⟨200, .statusBody "Index rebuilt successfully"⟩ ∧
    (rag_suggest (fun ds _ => ds) (fun _ => "n") (fun _ => none)
      ⟨some "k", some "d", none, none⟩ [] ⟨some "q", .pyNone, none, none⟩
      (rebuild_index ⟨some "k", some "d", none, none⟩ [] ⟨none, emptyFS⟩).2).response =
      ⟨500, .errorBody "Vector store not initialized. Call build_or_load_index() first."⟩ :=
  ⟨by decide, by decide,
    (C10_rebuild_empty_store_breaks_singleton ⟨some "k", some "d", none, none⟩
      ⟨none, emptyFS⟩ (by decide) (by decide)).1,
    (C10_rebuild_empty_store_breaks_singleton ⟨some "k", some "d", none, none⟩
      ⟨none, emptyFS⟩ (by decide) (by decide)).2.2.1
      (fun ds _ => ds) (fun _ => "n") (fun _ => none) [] ⟨some "q", .pyNone, none, none⟩
      (by decide)⟩
